import Mathlib

/-!
# terraform-provider-confluentcloud: lifecycle handlers

A shallow embedding of `internal/provider`: the three managed resources
(API key, ksqlDB cluster, schema registry) and the schema-registry data source.

The handlers are Go functions `(ctx, d, m) → diag.Diagnostics` that mutate the
`*schema.ResourceData` they are given and talk to the network.  Here a handler is a
pure function of a `World` (what the network and the JSON decoder answer), the
resource data and the client; it returns an `Outcome`: the diagnostics, the resource
data after the call and the list of requests handed to `client.Do`.

Not modelled: the `log.Printf` lines, the context, and the ten second timeout (a timeout is
one of the errors `client.Do` may return). `json.Marshal` of the request structs, which hold
only strings and integers, cannot fail, so its error branch is absent. Every attribute of
the provider is a `schema.TypeString`, so attribute values are strings.
-/

set_option autoImplicit false

namespace ConfluentCloud

/-! ## The plugin SDK, as far as the provider uses it -/

/-- Value types of `schema.Schema`; the provider only uses `schema.TypeString`. -/
inductive ValueType where
  | TypeString
  deriving DecidableEq, Repr

/-- The `Elem` of a schema, as written in the data source: a schema with only a type. -/
structure ElemSchema where
  Type_ : ValueType
  deriving DecidableEq, Repr

/-- The fields of `schema.Schema` the provider sets; Go's zero value is `false` / nil. -/
structure Schema where
  Type_ : ValueType
  Required : Bool := false
  Optional : Bool := false
  Computed : Bool := false
  ForceNew : Bool := false
  Elem : Option ElemSchema := none
  deriving DecidableEq, Repr

/-- A `map[string]*schema.Schema` literal, entries in source order (keys are distinct). -/
abbrev SchemaMap := List (String × Schema)

/-- Severity of a `diag.Diagnostic`. -/
inductive Severity where
  | Error
  | Warning
  deriving DecidableEq, Repr

/-- A `diag.Diagnostic`. -/
structure Diagnostic where
  Severity : Severity
  Summary : String
  Detail : String := ""
  deriving DecidableEq, Repr

/-- The type `diag.Diagnostics`; the nil slice is `[]`. -/
abbrev Diagnostics := List Diagnostic

/-- The call `diag.Errorf(format, args...)`, applied to the formatted message. -/
def diag.Errorf (msg : String) : Diagnostics :=
  [{ Severity := Severity.Error, Summary := msg }]

/-- The call `diag.FromErr(err)`, applied to `err.Error()`. -/
def diag.FromErr (err : String) : Diagnostics :=
  [{ Severity := Severity.Error, Summary := err }]

/-- The state behind `*schema.ResourceData`: the schema of the resource it belongs to, the
identity (`""` is unset) and the string attributes written so far (newest first). -/
structure ResourceData where
  schema : SchemaMap
  id : String
  attrs : List (String × String)
  deriving DecidableEq, Repr

namespace ResourceData

/-- The method `d.Id()`. -/
def Id (d : ResourceData) : String := d.id

/-- The method `d.SetId(v)`: it sets the identity and also writes `v` as the attribute "id".
The SDK writes that attribute without consulting the schema, and a read only returns keys
the schema declares; `attrs` holds what `d.Get` returns, so the attribute is recorded
exactly when the schema declares "id". -/
def SetId (d : ResourceData) (v : String) : ResourceData :=
  match d.schema.lookup "id" with
  | none => { d with id := v }
  | some _ => { d with id := v, attrs := ("id", v) :: d.attrs }

/-- The expression `d.Get(key).(string)` for a key of the schema: the value, or the zero
value `""` when nothing was set. -/
def Get (d : ResourceData) (key : String) : String :=
  (d.attrs.lookup key).getD ""

/-- The method `d.Set(key, value)`: the field writer refuses a key that is not in the schema
(it returns an error and writes nothing); otherwise the value is recorded. Returns the
resource data after the call and the error. -/
def Set (d : ResourceData) (key value : String) : ResourceData × Option String :=
  match d.schema.lookup key with
  | none => (d, some ("Invalid address to set: " ++ key))
  | some _ => ({ d with attrs := (key, value) :: d.attrs }, none)

end ResourceData

/-- The provider's `Client` (the `m` every handler receives): the credential pair. -/
structure Client where
  apiKey : String
  apiSecret : String
  deriving DecidableEq, Repr

/-- A JSON document, the result of `json.Marshal`. -/
inductive Json where
  | str (s : String)
  | num (n : Int)
  | arr (elems : List Json)
  | obj (fields : List (String × Json))

/-- An `*http.Request` as the handlers build it: method, URL, the headers added, the basic
auth pair and the body (`none` for a nil body). -/
structure HttpRequest where
  Method : String
  URL : String
  Header : List (String × String)
  BasicAuth : Option (String × String)
  Body : Option Json

/-- An `*http.Response`: the status code and the raw body. -/
structure HttpResponse where
  StatusCode : Int
  Body : String
  deriving DecidableEq, Repr

/-- How a handler call ends: it returns its diagnostics, or the Go runtime panics. Either
way `d` is the resource data at that point and `sent` the requests given to `client.Do`. -/
inductive Outcome where
  | returned (diags : Diagnostics) (d : ResourceData) (sent : List HttpRequest)
  | panicked (msg : String) (d : ResourceData) (sent : List HttpRequest)

namespace Outcome

/-- The requests the call handed to `client.Do`. -/
def sent : Outcome → List HttpRequest
  | returned _ _ s => s
  | panicked _ _ s => s

/-- The resource data when the call ended. -/
def data : Outcome → ResourceData
  | returned _ d _ => d
  | panicked _ d _ => d

end Outcome

/-! ## `strings.Split` -/

/-- Cut a character list at every `sep`: one more piece than there are separators. -/
def splitChars (sep : Char) : List Char → List (List Char)
  | [] => [[]]
  | c :: cs =>
    if c = sep then [] :: splitChars sep cs
    else
      match splitChars sep cs with
      | [] => [[c]]
      | p :: ps => (c :: p) :: ps

/-- The call `strings.Split(s, sep)` for a one-character separator. Go splits bytes; for the
ASCII separator used here that is the same as splitting the characters. -/
def strings.Split (s : String) (sep : Char) : List String :=
  (splitChars sep s.data).map String.mk

/-! ## Wire types -/

/-- Go: `type clientLogicalCluster struct`. -/
structure clientLogicalCluster where
  Name : String
  deriving DecidableEq, Repr

/-- Go: `type logicalCluster struct`, JSON keys `id` and `type`. -/
structure logicalCluster where
  Id : String
  Type_ : String
  deriving DecidableEq, Repr

/-- Go: `type apiKey struct`. -/
structure apiKey where
  AccountId : String
  ClientLogicalClusters : List clientLogicalCluster
  Created : String
  Deactivate : Bool
  Description : String
  HashFunciton : String
  HashedSecret : String
  Id : Int
  Internal : String
  Key : String
  LogicalClusters : List logicalCluster
  Modified : String
  OrganizationId : Int
  OrganizationResourceId : String
  SaslMechanism : String
  Secret : String
  ServiceAccount : Bool
  StoreSecret : Bool
  UserId : Int
  UserResourceId : String
  deriving DecidableEq, Repr

/-- Go: `type response struct` of `resource_api_key.go`. -/
structure response where
  ApiKey : apiKey
  Error : String
  deriving DecidableEq, Repr

/-- Go: `type clusterConfigOverrides struct`. -/
structure clusterConfigOverrides where
  Name : String
  deriving DecidableEq, Repr

/-- Go: `type ksqlDbCluster struct`. -/
structure ksqlDbCluster where
  AccountId : String
  ClusterConfigOverrides : clusterConfigOverrides
  Created : String
  Deployment : String
  Endpoint : String
  Id : String
  Image : String
  IsPaused : Bool
  KafkaApiKey : apiKey
  KafkaClusterId : String
  KafkaUserId : Int
  KafkaUserName : String
  Modified : String
  Name : String
  OrgResourceId : String
  OrganizationId : Int
  OutputToicPrefix : String
  PhysicalClusterId : String
  Servers : Int
  ServiceAccountId : Int
  Status : String
  Storage : Int
  TotalNumCsu : Int
  deriving DecidableEq, Repr

/-- Go: the `schemaRegistryCluster` struct, declared with the same fields inside
`resourceSchemaRegistryCreate`, `resourceSchemaRegistryRead` and
`dataSourceSchemaRegistryRead`. -/
structure schemaRegistryCluster where
  Id : String
  Name : String
  Kafka_cluster_id : String
  Endpoint : String
  Created : String
  Modified : String
  Status : String
  Physical_cluster_id : String
  Account_id : String
  Organization_id : Int
  Max_schemas : Int
  Org_resource_id : String
  deriving DecidableEq, Repr

namespace resourceKsqlDbClusterCreate

/-- Go: `type response struct` inside `resourceKsqlDbClusterCreate`. -/
structure response where
  Cluster : ksqlDbCluster
  Credentials : String
  Error : String
  ValidationErrors : String
  deriving DecidableEq, Repr

end resourceKsqlDbClusterCreate

namespace resourceSchemaRegistryCreate

/-- Go: `type responseBody struct` inside `resourceSchemaRegistryCreate`. -/
structure responseBody where
  Cluster : schemaRegistryCluster
  Credentials : String
  Error : String
  ValidationErrors : String
  deriving DecidableEq, Repr

end resourceSchemaRegistryCreate

namespace resourceSchemaRegistryRead

/-- Go: `type responseBody struct` inside `resourceSchemaRegistryRead`. -/
structure responseBody where
  Error : String
  Cluster : schemaRegistryCluster
  deriving DecidableEq, Repr

end resourceSchemaRegistryRead

namespace dataSourceSchemaRegistryRead

/-- Go: `type responseBody struct` inside `dataSourceSchemaRegistryRead`. -/
structure responseBody where
  Error : String
  Clusters : List schemaRegistryCluster
  deriving DecidableEq, Repr

end dataSourceSchemaRegistryRead

/-! ## What the outside answers -/

/-- Everything a handler call depends on besides its arguments.

* `urlError url` is the error of `http.NewRequestWithContext` (the URL does not parse), if any;
* `roundTrip req` is the result of `client.Do(req)`;
* the `decode…` functions are `json.NewDecoder(r.Body).Decode(&resp)` at each of the
  response types, applied to the raw body. -/
structure World where
  urlError : String → Option String
  roundTrip : HttpRequest → Except String HttpResponse
  decodeApiKey : String → Except String response
  decodeKsqlDbCluster : String → Except String resourceKsqlDbClusterCreate.response
  decodeSchemaRegistryCreate : String → Except String resourceSchemaRegistryCreate.responseBody
  decodeSchemaRegistryRead : String → Except String resourceSchemaRegistryRead.responseBody
  decodeSchemaRegistryList : String → Except String dataSourceSchemaRegistryRead.responseBody

/-- A lifecycle handler (`CreateContext`, `ReadContext`, `UpdateContext`, `DeleteContext`). -/
abbrev Handler := World → ResourceData → Client → Outcome

/-- A `schema.ResourceImporter.StateContext`: the resources to import or an error, and the
resource data it was given, after the call. -/
abbrev Importer := ResourceData → Client → Except String (List ResourceData) × ResourceData

/-- The fields of `schema.Resource` the provider sets; an absent handler is `none`. -/
structure Resource where
  CreateContext : Option Handler := none
  ReadContext : Option Handler := none
  UpdateContext : Option Handler := none
  DeleteContext : Option Handler := none
  Schema : SchemaMap
  Importer : Option Importer := none

/-! ## `fmt` verbs and `json.Marshal` -/

/-- The verb `%d` of `fmt` at an `int`. -/
def fmtD (n : Int) : String := toString n

/-- The verb `%v` of `fmt` at a `bool`. -/
def fmtBool (b : Bool) : String := if b then "true" else "false"

/-- The verb `%v` of `fmt` at a struct, given its fields already formatted: the fields
between braces, separated by blanks. -/
def fmtStruct (fields : List String) : String :=
  "\x7b" ++ " ".intercalate fields ++ "\x7d"

/-- The verb `%v` of `fmt` at a slice, given its elements already formatted. -/
def fmtSlice (elems : List String) : String :=
  "[" ++ " ".intercalate elems ++ "]"

/-- The verb `%v` at a `clientLogicalCluster`. -/
def clientLogicalCluster.fmtV (c : clientLogicalCluster) : String :=
  fmtStruct [c.Name]

/-- The verb `%v` at a `logicalCluster`. -/
def logicalCluster.fmtV (c : logicalCluster) : String :=
  fmtStruct [c.Id, c.Type_]

/-- The verb `%v` at an `apiKey`. -/
def apiKey.fmtV (a : apiKey) : String :=
  fmtStruct [a.AccountId, fmtSlice (a.ClientLogicalClusters.map clientLogicalCluster.fmtV),
    a.Created, fmtBool a.Deactivate, a.Description, a.HashFunciton, a.HashedSecret, fmtD a.Id,
    a.Internal, a.Key, fmtSlice (a.LogicalClusters.map logicalCluster.fmtV), a.Modified,
    fmtD a.OrganizationId, a.OrganizationResourceId, a.SaslMechanism, a.Secret,
    fmtBool a.ServiceAccount, fmtBool a.StoreSecret, fmtD a.UserId, a.UserResourceId]

/-- The verb `%v` at the API key `response`. -/
def response.fmtV (r : response) : String :=
  fmtStruct [r.ApiKey.fmtV, r.Error]

/-- The verb `%v` at a `ksqlDbCluster`. -/
def ksqlDbCluster.fmtV (k : ksqlDbCluster) : String :=
  fmtStruct [k.AccountId, fmtStruct [k.ClusterConfigOverrides.Name], k.Created, k.Deployment,
    k.Endpoint, k.Id, k.Image, fmtBool k.IsPaused, k.KafkaApiKey.fmtV, k.KafkaClusterId,
    fmtD k.KafkaUserId, k.KafkaUserName, k.Modified, k.Name, k.OrgResourceId,
    fmtD k.OrganizationId, ksqlDbCluster.OutputToicPrefix k, k.PhysicalClusterId,
    fmtD k.Servers, fmtD k.ServiceAccountId, k.Status, fmtD k.Storage, fmtD k.TotalNumCsu]

/-- The verb `%v` at a `schemaRegistryCluster`. -/
def schemaRegistryCluster.fmtV (s : schemaRegistryCluster) : String :=
  fmtStruct [s.Id, s.Name, s.Kafka_cluster_id, s.Endpoint, s.Created, s.Modified, s.Status,
    s.Physical_cluster_id, s.Account_id, fmtD s.Organization_id, fmtD s.Max_schemas,
    s.Org_resource_id]

/-- The verb `%v` at the ksqlDB create response. -/
def resourceKsqlDbClusterCreate.response.fmtV
    (r : resourceKsqlDbClusterCreate.response) : String :=
  fmtStruct [r.Cluster.fmtV, r.Credentials, r.Error, r.ValidationErrors]

/-- The verb `%v` at the schema registry create response. -/
def resourceSchemaRegistryCreate.responseBody.fmtV
    (r : resourceSchemaRegistryCreate.responseBody) : String :=
  fmtStruct [r.Cluster.fmtV, r.Credentials, r.Error, r.ValidationErrors]

/-- The verb `%v` at the schema registry read response. -/
def resourceSchemaRegistryRead.responseBody.fmtV
    (r : resourceSchemaRegistryRead.responseBody) : String :=
  fmtStruct [r.Error, r.Cluster.fmtV]

/-- The verb `%v` at the schema registry list response. -/
def dataSourceSchemaRegistryRead.responseBody.fmtV
    (r : dataSourceSchemaRegistryRead.responseBody) : String :=
  fmtStruct [r.Error, fmtSlice (r.Clusters.map schemaRegistryCluster.fmtV)]

/-- The result of `json.Marshal` at a `logicalCluster`, keys from its `json:` tags. -/
def logicalCluster.marshal (c : logicalCluster) : Json :=
  Json.obj [("id", Json.str c.Id), ("type", Json.str c.Type_)]

namespace resourceApiKeyCreate

/-- Go: `type apiKeyRequest struct` inside `resourceApiKeyCreate`. -/
structure apiKeyRequest where
  AccountId : String
  Description : String
  LogicalClusters : List logicalCluster
  UserId : Int
  UserResourceId : String
  deriving DecidableEq, Repr

/-- Go: `type request struct` inside `resourceApiKeyCreate`. -/
structure request where
  ApiKey : apiKeyRequest
  deriving DecidableEq, Repr

/-- The result of `json.Marshal` at an `apiKeyRequest`. -/
def apiKeyRequest.marshal (a : apiKeyRequest) : Json :=
  Json.obj [("accountId", Json.str a.AccountId), ("description", Json.str a.Description),
    ("logicalClusters", Json.arr (a.LogicalClusters.map logicalCluster.marshal)),
    ("userId", Json.num a.UserId), ("userResourceId", Json.str a.UserResourceId)]

/-- The result of `json.Marshal` at a `request`. -/
def request.marshal (r : request) : Json :=
  Json.obj [("apiKey", r.ApiKey.marshal)]

end resourceApiKeyCreate

namespace resourceKsqlDbClusterCreate

/-- Go: `type simpleApiKey struct` inside `resourceKsqlDbClusterCreate`. -/
structure simpleApiKey where
  Key : String
  Secret : String
  deriving DecidableEq, Repr

/-- Go: `type requestConfig struct` inside `resourceKsqlDbClusterCreate`. -/
structure requestConfig where
  AccountId : String
  KafkaApiKey : simpleApiKey
  KafkaClusterId : String
  Name : String
  TotalNumCsu : Int
  deriving DecidableEq, Repr

/-- Go: `type request struct` inside `resourceKsqlDbClusterCreate`. -/
structure request where
  Config : requestConfig
  deriving DecidableEq, Repr

/-- The result of `json.Marshal` at a `request`. -/
def request.marshal (r : request) : Json :=
  Json.obj [("config", Json.obj [("accountId", Json.str r.Config.AccountId),
    ("kafkaApiKey", Json.obj [("key", Json.str r.Config.KafkaApiKey.Key),
      ("secret", Json.str r.Config.KafkaApiKey.Secret)]),
    ("kafkaClusterId", Json.str r.Config.KafkaClusterId),
    ("name", Json.str r.Config.Name),
    ("totalNumCsu", Json.num r.Config.TotalNumCsu)])]

end resourceKsqlDbClusterCreate

namespace resourceSchemaRegistryCreate

/-- Go: `type requestConfig struct` inside `resourceSchemaRegistryCreate`. -/
structure requestConfig where
  AccountId : String
  Location : String
  Name : String
  ServiceProvider : String
  deriving DecidableEq, Repr

/-- Go: `type request struct` inside `resourceSchemaRegistryCreate`. -/
structure request where
  Config : requestConfig
  deriving DecidableEq, Repr

/-- The result of `json.Marshal` at a `request`. -/
def request.marshal (r : request) : Json :=
  Json.obj [("config", Json.obj [("accountId", Json.str r.Config.AccountId),
    ("location", Json.str r.Config.Location), ("name", Json.str r.Config.Name),
    ("serviceProvider", Json.str r.Config.ServiceProvider)])]

end resourceSchemaRegistryCreate

/-! ## API key -/

/-- Go: `resourceApiKeyCreate`. -/
def resourceApiKeyCreate (w : World) (d : ResourceData) (m : Client) : Outcome :=
  let diags : Diagnostics := []
  let c := m
  let environmentId := d.Get "environment_id"
  let resourceId := d.Get "resource_id"
  let resourceType := d.Get "resource_type"
  let description := d.Get "description"
  let url := "https://api.confluent.cloud" ++ "/api_keys?account_id=" ++ environmentId
  let post_data : resourceApiKeyCreate.request :=
    { ApiKey :=
      { AccountId := environmentId
        Description := description
        LogicalClusters := [{ Id := resourceId, Type_ := resourceType }]
        UserId := 0
        UserResourceId := "sa-gq8no3" } }
  let requestBody := post_data.marshal
  match w.urlError url with
  | some err => Outcome.returned (diag.FromErr err) d []
  | none =>
    let req : HttpRequest :=
      { Method := "POST", URL := url, Header := [("Content-type", "application/json")],
        BasicAuth := some (c.apiKey, c.apiSecret), Body := some requestBody }
    match w.roundTrip req with
    | Except.error err => Outcome.returned (diag.FromErr err) d [req]
    | Except.ok r =>
      if r.StatusCode ≠ 200 then
        Outcome.returned
          (diags ++ diag.Errorf ("HTTP request error. Response code: " ++ fmtD r.StatusCode))
          d [req]
      else
        match w.decodeApiKey r.Body with
        | Except.error err => Outcome.returned (diag.FromErr err) d [req]
        | Except.ok resp =>
          if resp.Error ≠ "" then
            Outcome.returned
              (diags ++ diag.Errorf ("Unexpected API response. Body: " ++ resp.fmtV)) d [req]
          else
            let d := (d.Set "secret" resp.ApiKey.Secret).1
            let d := (d.Set "key" resp.ApiKey.Key).1
            let d := d.SetId resp.ApiKey.Key
            Outcome.returned diags d [req]

/-- Go: `resourceApiKeyRead`. -/
def resourceApiKeyRead (_w : World) (d : ResourceData) (_m : Client) : Outcome :=
  let diags : Diagnostics := []
  Outcome.returned diags d []

/-- Go: `resourceApiKeyDelete`. -/
def resourceApiKeyDelete (_w : World) (d : ResourceData) (_m : Client) : Outcome :=
  let diags : Diagnostics := []
  Outcome.returned diags d []

/-- Go: `resourceApiKey`. -/
def resourceApiKey : Resource :=
  { CreateContext := some resourceApiKeyCreate
    ReadContext := some resourceApiKeyRead
    DeleteContext := some resourceApiKeyDelete
    Schema :=
      [ ("key", { Type_ := ValueType.TypeString, Computed := true }),
        ("secret", { Type_ := ValueType.TypeString, Computed := true }),
        ("environment_id", { Type_ := ValueType.TypeString, Required := true, ForceNew := true }),
        ("description", { Type_ := ValueType.TypeString, Optional := true, ForceNew := true }),
        ("owner_id", { Type_ := ValueType.TypeString, Required := true, ForceNew := true }),
        ("owner_email", { Type_ := ValueType.TypeString, Optional := true, ForceNew := true }),
        ("resource_type", { Type_ := ValueType.TypeString, Optional := true, ForceNew := true }),
        ("resource_id", { Type_ := ValueType.TypeString, Required := true, ForceNew := true }) ] }

/-! ## ksqlDB cluster -/

/-- Go: `resourceKsqlDbClusterCreate`. -/
def resourceKsqlDbClusterCreate (w : World) (d : ResourceData) (m : Client) : Outcome :=
  let diags : Diagnostics := []
  let c := m
  let environment_id := d.Get "environment_id"
  let url := "https://api.confluent.cloud" ++ "/ksqls?account_id=" ++ environment_id
  let post_data : resourceKsqlDbClusterCreate.request :=
    { Config :=
      { AccountId := environment_id
        KafkaApiKey := { Key := d.Get "kafka_api_key", Secret := d.Get "kafka_api_secret" }
        KafkaClusterId := d.Get "kafka_id"
        Name := d.Get "name"
        TotalNumCsu := 4 } }
  let requestBody := post_data.marshal
  match w.urlError url with
  | some err => Outcome.returned (diag.FromErr err) d []
  | none =>
    let req : HttpRequest :=
      { Method := "POST", URL := url, Header := [("Content-type", "application/json")],
        BasicAuth := some (c.apiKey, c.apiSecret), Body := some requestBody }
    match w.roundTrip req with
    | Except.error err => Outcome.returned (diag.FromErr err) d [req]
    | Except.ok r =>
      if r.StatusCode ≠ 200 then
        Outcome.returned
          (diags ++ diag.Errorf ("HTTP request error. Response code: " ++ fmtD r.StatusCode))
          d [req]
      else
        match w.decodeKsqlDbCluster r.Body with
        | Except.error err => Outcome.returned (diag.FromErr err) d [req]
        | Except.ok resp =>
          if resp.Error ≠ "" then
            Outcome.returned
              (diags ++ diag.Errorf ("Unexpected API response. Body: " ++ resp.fmtV)) d [req]
          else
            let d := (d.Set "name" resp.Cluster.Name).1
            let d := d.SetId resp.Cluster.Id
            Outcome.returned diags d [req]

/-- Go: `resourceKsqlDbClusterRead`. -/
def resourceKsqlDbClusterRead (_w : World) (d : ResourceData) (_m : Client) : Outcome :=
  let diags : Diagnostics := []
  Outcome.returned diags d []

/-- Go: `resourceKsqlDbClusterUpdate`. -/
def resourceKsqlDbClusterUpdate (_w : World) (d : ResourceData) (_m : Client) : Outcome :=
  let diags : Diagnostics := []
  Outcome.returned diags d []

/-- Go: `resourceKsqlDbClusterDelete`. -/
def resourceKsqlDbClusterDelete (_w : World) (d : ResourceData) (_m : Client) : Outcome :=
  let diags : Diagnostics := []
  Outcome.returned diags d []

/-- Go: `resourceKsqlDbCluster`. -/
def resourceKsqlDbCluster : Resource :=
  { CreateContext := some resourceKsqlDbClusterCreate
    ReadContext := some resourceKsqlDbClusterRead
    UpdateContext := some resourceKsqlDbClusterUpdate
    DeleteContext := some resourceKsqlDbClusterDelete
    Schema :=
      [ ("id", { Type_ := ValueType.TypeString, Computed := true }),
        ("name", { Type_ := ValueType.TypeString, Required := true }),
        ("topic_prefix", { Type_ := ValueType.TypeString, Computed := true }),
        ("kafka_id", { Type_ := ValueType.TypeString, Required := true }),
        ("kafka_api_key", { Type_ := ValueType.TypeString, Required := true }),
        ("kafka_api_secret", { Type_ := ValueType.TypeString, Required := true }),
        ("endpoint", { Type_ := ValueType.TypeString, Computed := true }),
        ("environment_id", { Type_ := ValueType.TypeString, Required := true }) ] }

/-! ## Schema registry -/

/-- Go: `resourceSchemaRegistryCreate`. -/
def resourceSchemaRegistryCreate (w : World) (d : ResourceData) (m : Client) : Outcome :=
  let diags : Diagnostics := []
  let c := m
  let environment_id := d.Get "environment_id"
  let location := d.Get "location"
  let service_provider := d.Get "service_provider"
  let url := "https://api.confluent.cloud" ++ "/schema_registries?account_id=" ++ environment_id
  let post_data : resourceSchemaRegistryCreate.request :=
    { Config :=
      { AccountId := environment_id
        Location := location
        Name := "account schema-registry"
        ServiceProvider := service_provider } }
  let requestBody := post_data.marshal
  match w.urlError url with
  | some err => Outcome.returned (diag.FromErr err) d []
  | none =>
    let req : HttpRequest :=
      { Method := "POST", URL := url, Header := [("Content-type", "application/json")],
        BasicAuth := some (c.apiKey, c.apiSecret), Body := some requestBody }
    match w.roundTrip req with
    | Except.error err => Outcome.returned (diag.FromErr err) d [req]
    | Except.ok r =>
      if r.StatusCode ≠ 200 then
        Outcome.returned
          (diags ++ diag.Errorf ("HTTP request error. Response code: " ++ fmtD r.StatusCode))
          d [req]
      else
        match w.decodeSchemaRegistryCreate r.Body with
        | Except.error err => Outcome.returned (diag.FromErr err) d [req]
        | Except.ok resp =>
          if resp.Error ≠ "" then
            Outcome.returned
              (diags ++ diag.Errorf ("Unexpected API response. Body: " ++ resp.fmtV)) d [req]
          else
            let d := (d.Set "name" resp.Cluster.Name).1
            let d := d.SetId resp.Cluster.Id
            Outcome.returned diags d [req]

/-- Go: `resourceSchemaRegistryRead`. -/
def resourceSchemaRegistryRead (w : World) (d : ResourceData) (m : Client) : Outcome :=
  let c := m
  let diags : Diagnostics := []
  let srId := d.Id
  let environmentId := d.Get "environment_id"
  let url := "https://api.confluent.cloud" ++ "/schema_registries/" ++ srId ++ "?account_id="
    ++ environmentId
  match w.urlError url with
  | some err => Outcome.returned (diag.FromErr err) d []
  | none =>
    let req : HttpRequest :=
      { Method := "GET", URL := url, Header := [],
        BasicAuth := some (c.apiKey, c.apiSecret), Body := none }
    match w.roundTrip req with
    | Except.error err => Outcome.returned (diag.FromErr err) d [req]
    | Except.ok r =>
      if r.StatusCode ≠ 200 then
        Outcome.returned
          (diags ++ diag.Errorf ("HTTP request error. Response code: " ++ fmtD r.StatusCode))
          d [req]
      else
        match w.decodeSchemaRegistryRead r.Body with
        | Except.error err => Outcome.returned (diag.FromErr err) d [req]
        | Except.ok resp =>
          if resp.Error ≠ "" then
            Outcome.returned
              (diags ++ diag.Errorf ("Unexpected API response. Body: " ++ resp.fmtV)) d [req]
          else
            let d := (d.Set "name" resp.Cluster.Name).1
            Outcome.returned diags d [req]

/-- Go: `resourceSchemaRegistryUpdate`. -/
def resourceSchemaRegistryUpdate (_w : World) (d : ResourceData) (_m : Client) : Outcome :=
  let diags : Diagnostics := []
  Outcome.returned diags d []

/-- Go: `resourceSchemaRegistryDelete`. -/
def resourceSchemaRegistryDelete (_w : World) (d : ResourceData) (_m : Client) : Outcome :=
  let diags : Diagnostics := []
  Outcome.returned diags d []

/-- Go: `schemaRegistryImport`. It has no access to the `World`: nothing is requested. -/
def schemaRegistryImport (d : ResourceData) (_m : Client) :
    Except String (List ResourceData) × ResourceData :=
  let envIDAndClusterID := d.Id
  let parts := strings.Split envIDAndClusterID '/'
  match parts with
  | [environmentId, clusterId] =>
    let d := d.SetId clusterId
    let d := (d.Set "environment_id" environmentId).1
    (Except.ok [d], d)
  | _ =>
    (Except.error "invalid format for kafka import: expected '<env ID>/<lkc ID>'", d)

/-- Go: `resourceSchemaRegistry`. -/
def resourceSchemaRegistry : Resource :=
  { CreateContext := some resourceSchemaRegistryCreate
    ReadContext := some resourceSchemaRegistryRead
    UpdateContext := some resourceSchemaRegistryUpdate
    DeleteContext := some resourceSchemaRegistryDelete
    Schema :=
      [ ("id", { Type_ := ValueType.TypeString, Computed := true }),
        ("environment_id", { Type_ := ValueType.TypeString, Required := true }),
        ("kafka_cluster_id", { Type_ := ValueType.TypeString, Required := true }),
        ("endpoint", { Type_ := ValueType.TypeString, Computed := true }),
        ("service_provider", { Type_ := ValueType.TypeString, Required := true }),
        ("location", { Type_ := ValueType.TypeString, Required := true }) ]
    Importer := some schemaRegistryImport }

/-! ## Schema registry data source -/

/-- Go: `dataSourceSchemaRegistryRead`. The expression `resp.Clusters[0]` is evaluated
before anything is written; on an empty slice the runtime panics there. -/
def dataSourceSchemaRegistryRead (w : World) (d : ResourceData) (m : Client) : Outcome :=
  let c := m
  let diags : Diagnostics := []
  let environment_id := d.Get "environment_id"
  let url := "https://api.confluent.cloud" ++ "/schema_registries?account_id=" ++ environment_id
  match w.urlError url with
  | some err => Outcome.returned (diag.FromErr err) d []
  | none =>
    let req : HttpRequest :=
      { Method := "GET", URL := url, Header := [],
        BasicAuth := some (c.apiKey, c.apiSecret), Body := none }
    match w.roundTrip req with
    | Except.error err => Outcome.returned (diag.FromErr err) d [req]
    | Except.ok r =>
      if r.StatusCode ≠ 200 then
        Outcome.returned
          (diags ++ diag.Errorf ("HTTP request error. Response code: " ++ fmtD r.StatusCode))
          d [req]
      else
        match w.decodeSchemaRegistryList r.Body with
        | Except.error err => Outcome.returned (diag.FromErr err) d [req]
        | Except.ok resp =>
          if resp.Error ≠ "" then
            Outcome.returned
              (diags ++ diag.Errorf ("Unexpected API response. Body: " ++ resp.fmtV)) d [req]
          else
            match resp.Clusters with
            | [] =>
              Outcome.panicked "runtime error: index out of range [0] with length 0" d [req]
            | first :: _ =>
              let d := (d.Set "name" first.Name).1
              let d := d.SetId first.Id
              Outcome.returned diags d [req]

/-- Go: `dataSourceSchemaRegistry`. -/
def dataSourceSchemaRegistry : Resource :=
  { ReadContext := some dataSourceSchemaRegistryRead
    Schema :=
      [ ("environment_id", { Type_ := ValueType.TypeString, Required := true,
                             Elem := some (ElemSchema.mk ValueType.TypeString) }),
        ("name", { Type_ := ValueType.TypeString, Computed := true,
                   Elem := some (ElemSchema.mk ValueType.TypeString) }) ] }

/-! ## Vocabulary of the statements -/

/-- The request `resourceApiKeyCreate` hands to `client.Do` (see `apiKey_create_request`). -/
def apiKeyCreateRequest (d : ResourceData) (m : Client) : HttpRequest :=
  { Method := "POST"
    URL := "https://api.confluent.cloud/api_keys?account_id=" ++ d.Get "environment_id"
    Header := [("Content-type", "application/json")]
    BasicAuth := some (m.apiKey, m.apiSecret)
    Body := some (Json.obj [("apiKey", Json.obj
      [("accountId", Json.str (d.Get "environment_id")),
       ("description", Json.str (d.Get "description")),
       ("logicalClusters", Json.arr [Json.obj [("id", Json.str (d.Get "resource_id")),
          ("type", Json.str (d.Get "resource_type"))]]),
       ("userId", Json.num 0),
       ("userResourceId", Json.str "sa-gq8no3")])]) }

/-- The request `resourceKsqlDbClusterCreate` hands to `client.Do`. -/
def ksqlDbClusterCreateRequest (d : ResourceData) (m : Client) : HttpRequest :=
  { Method := "POST"
    URL := "https://api.confluent.cloud/ksqls?account_id=" ++ d.Get "environment_id"
    Header := [("Content-type", "application/json")]
    BasicAuth := some (m.apiKey, m.apiSecret)
    Body := some (Json.obj [("config", Json.obj
      [("accountId", Json.str (d.Get "environment_id")),
       ("kafkaApiKey", Json.obj [("key", Json.str (d.Get "kafka_api_key")),
          ("secret", Json.str (d.Get "kafka_api_secret"))]),
       ("kafkaClusterId", Json.str (d.Get "kafka_id")),
       ("name", Json.str (d.Get "name")),
       ("totalNumCsu", Json.num 4)])]) }

/-- The request `resourceSchemaRegistryCreate` hands to `client.Do`. -/
def schemaRegistryCreateRequest (d : ResourceData) (m : Client) : HttpRequest :=
  { Method := "POST"
    URL := "https://api.confluent.cloud/schema_registries?account_id=" ++ d.Get "environment_id"
    Header := [("Content-type", "application/json")]
    BasicAuth := some (m.apiKey, m.apiSecret)
    Body := some (Json.obj [("config", Json.obj
      [("accountId", Json.str (d.Get "environment_id")),
       ("location", Json.str (d.Get "location")),
       ("name", Json.str "account schema-registry"),
       ("serviceProvider", Json.str (d.Get "service_provider"))])]) }

/-- The request `dataSourceSchemaRegistryRead` hands to `client.Do`. -/
def schemaRegistryListRequest (d : ResourceData) (m : Client) : HttpRequest :=
  { Method := "GET"
    URL := "https://api.confluent.cloud/schema_registries?account_id=" ++ d.Get "environment_id"
    Header := []
    BasicAuth := some (m.apiKey, m.apiSecret)
    Body := none }

/-- A handler slot holds a no-op: a handler is registered, and for every world, resource data
and client it returns no diagnostics, the resource data it was given, and sends nothing. -/
def IsNoOp (slot : Option Handler) : Prop :=
  ∃ f, slot = some f ∧ ∀ w d m, f w d m = Outcome.returned [] d []

/-- An attribute the user supplies: `Required` or `Optional`. -/
def Schema.isInput (s : Schema) : Bool := s.Required || s.Optional

/-- Every input attribute of the resource is declared `ForceNew`. -/
def inputsForceNew (r : Resource) : Bool :=
  r.Schema.all fun p => !p.2.isInput || p.2.ForceNew

/-- No attribute of the resource is declared `ForceNew`. -/
def noForceNew (r : Resource) : Bool :=
  r.Schema.all fun p => !p.2.ForceNew

/-- The member `key` of a JSON object (`none` for a missing key or a non-object). -/
def Json.field (j : Json) (key : String) : Option Json :=
  match j with
  | Json.obj fields => fields.lookup key
  | _ => none

/-- The raw query of a URL as `url.Parse` cuts it: the fragment, from the first `#` on, is
dropped, and the query is what follows the first `?`. -/
def rawQuery (url : String) : List Char :=
  ((url.data.takeWhile fun c => c != '#').dropWhile fun c => c != '?').drop 1

/-- One piece of a query, cut at its first `=` into key and value. -/
def queryPair (piece : List Char) : String × String :=
  (String.mk (piece.takeWhile fun c => c != '='),
   String.mk ((piece.dropWhile fun c => c != '=').drop 1))

/-- The parameters of a URL as `url.ParseQuery` reads its raw query: the pieces between `&`,
empty pieces skipped, each cut at its first `=`. The unescaping of keys and values is not
modelled: the result is `none` for a query holding `%`, `+` or `;`, and for every other
query unescaping changes nothing. -/
def queryParams (url : String) : Option (List (String × String)) :=
  let q := rawQuery url
  if q.any (fun c => c == '%' || c == '+' || c == ';') then none
  else some (((splitChars '&' q).filter fun piece => !piece.isEmpty).map queryPair)

/-! ## Stub remotes and sample data -/

/-- A sample API key payload. -/
def stubApiKey : apiKey :=
  { AccountId := "env-18vqv", ClientLogicalClusters := [], Created := "", Deactivate := false,
    Description := "ci key", HashFunciton := "", HashedSecret := "", Id := 7, Internal := "",
    Key := "ABCDEFGH", LogicalClusters := [{ Id := "lkc-415jz", Type_ := "kafka" }],
    Modified := "", OrganizationId := 51445, OrganizationResourceId := "", SaslMechanism := "",
    Secret := "s3cr3t", ServiceAccount := false, StoreSecret := false, UserId := 0,
    UserResourceId := "sa-gq8no3" }

/-- A sample ksqlDB cluster payload. -/
def stubKsqlDbCluster : ksqlDbCluster :=
  { AccountId := "env-18vqv", ClusterConfigOverrides := { Name := "" }, Created := "",
    Deployment := "", Endpoint := "https://pksqlc-1.us-east-2.aws.confluent.cloud",
    Id := "lksqlc-1", Image := "", IsPaused := false, KafkaApiKey := stubApiKey,
    KafkaClusterId := "lkc-415jz", KafkaUserId := 0, KafkaUserName := "", Modified := "",
    Name := "ksql-remote", OrgResourceId := "", OrganizationId := 51445,
    OutputToicPrefix := "pksqlc-1", PhysicalClusterId := "pksqlc-1", Servers := 1,
    ServiceAccountId := 0, Status := "UP", Storage := 0, TotalNumCsu := 4 }

/-- The schema registry payload quoted in the comment of `resource_schema_registry.go`. -/
def stubSchemaRegistryCluster : schemaRegistryCluster :=
  { Id := "lsrc-o338zj", Name := "account schema-registry", Kafka_cluster_id := "lkc-415jz",
    Endpoint := "https://psrc-1wydj.us-east-2.aws.confluent.cloud",
    Created := "2022-03-28T00:35:19.860568Z", Modified := "2022-03-28T00:35:19.860568Z",
    Status := "UP", Physical_cluster_id := "psrc-1wydj", Account_id := "env-18vqv",
    Organization_id := 51445, Max_schemas := 1000,
    Org_resource_id := "8698e965-f21a-4fba-b440-170f630352d6" }

/-- A second schema registry payload, to follow the first in a list. -/
def otherSchemaRegistryCluster : schemaRegistryCluster :=
  { stubSchemaRegistryCluster with Id := "lsrc-other", Name := "another registry" }

/-- A stub remote: every URL parses, every request is answered with status `status`, and the
body decodes to the sample payloads with envelope error `err` and cluster list `clusters`. -/
def stubWorld (status : Int) (err : String) (clusters : List schemaRegistryCluster) : World :=
  { urlError := fun _ => none
    roundTrip := fun _ => Except.ok { StatusCode := status, Body := "" }
    decodeApiKey := fun _ => Except.ok { ApiKey := stubApiKey, Error := err }
    decodeKsqlDbCluster := fun _ =>
      Except.ok { Cluster := stubKsqlDbCluster, Credentials := "", Error := err,
                  ValidationErrors := "" }
    decodeSchemaRegistryCreate := fun _ =>
      Except.ok { Cluster := stubSchemaRegistryCluster, Credentials := "", Error := err,
                  ValidationErrors := "" }
    decodeSchemaRegistryRead := fun _ =>
      Except.ok { Error := err, Cluster := stubSchemaRegistryCluster }
    decodeSchemaRegistryList := fun _ => Except.ok { Error := err, Clusters := clusters } }

/-- The credential pair of the stub runs. -/
def stubClient : Client := { apiKey := "cloud-key", apiSecret := "cloud-secret" }

/-- A declared API key, not yet created. -/
def declaredApiKey : ResourceData :=
  { schema := resourceApiKey.Schema, id := "",
    attrs := [("environment_id", "env-18vqv"), ("owner_id", "42"),
              ("resource_id", "lkc-415jz"), ("resource_type", "kafka"),
              ("description", "ci key")] }

/-- A declared ksqlDB cluster, not yet created. -/
def declaredKsqlDbCluster : ResourceData :=
  { schema := resourceKsqlDbCluster.Schema, id := "",
    attrs := [("name", "ksql"), ("kafka_id", "lkc-415jz"), ("kafka_api_key", "K"),
              ("kafka_api_secret", "S"), ("environment_id", "env-18vqv")] }

/-- A declared schema registry, not yet created. -/
def declaredSchemaRegistry : ResourceData :=
  { schema := resourceSchemaRegistry.Schema, id := "",
    attrs := [("environment_id", "env-18vqv"), ("kafka_cluster_id", "lkc-415jz"),
              ("service_provider", "aws"), ("location", "us-east-2")] }

/-- A schema registry data source with its input set. -/
def declaredLookup : ResourceData :=
  { schema := dataSourceSchemaRegistry.Schema, id := "",
    attrs := [("environment_id", "env-18vqv")] }

/-- The declared API key of `declaredApiKey` with another owner and an owner email. -/
def declaredApiKeyOtherOwner : ResourceData :=
  { schema := resourceApiKey.Schema, id := "",
    attrs := [("owner_email", "ops@example.com"), ("environment_id", "env-18vqv"),
              ("owner_id", "99"), ("resource_id", "lkc-415jz"), ("resource_type", "kafka"),
              ("description", "ci key")] }

/-- The declared API key of `declaredApiKey` with an ampersand in its `environment_id`. -/
def declaredApiKeyAmpersand : ResourceData :=
  { schema := resourceApiKey.Schema, id := "",
    attrs := [("environment_id", "a&b=c"), ("owner_id", "42"),
              ("resource_id", "lkc-415jz"), ("resource_type", "kafka"),
              ("description", "ci key")] }

/-! ## Unfolding lemmas -/

theorem resourceApiKeyCreate_eq (w : World) (d : ResourceData) (m : Client) :
    resourceApiKeyCreate w d m =
      match w.urlError (apiKeyCreateRequest d m).URL with
      | some err => Outcome.returned (diag.FromErr err) d []
      | none =>
        match w.roundTrip (apiKeyCreateRequest d m) with
        | Except.error err => Outcome.returned (diag.FromErr err) d [apiKeyCreateRequest d m]
        | Except.ok r =>
          if r.StatusCode ≠ 200 then
            Outcome.returned
              (diag.Errorf ("HTTP request error. Response code: " ++ fmtD r.StatusCode))
              d [apiKeyCreateRequest d m]
          else
            match w.decodeApiKey r.Body with
            | Except.error err =>
              Outcome.returned (diag.FromErr err) d [apiKeyCreateRequest d m]
            | Except.ok resp =>
              if resp.Error ≠ "" then
                Outcome.returned
                  (diag.Errorf ("Unexpected API response. Body: " ++ resp.fmtV)) d
                  [apiKeyCreateRequest d m]
              else
                Outcome.returned []
                  (((d.Set "secret" resp.ApiKey.Secret).1.Set "key" resp.ApiKey.Key).1.SetId
                    resp.ApiKey.Key)
                  [apiKeyCreateRequest d m] := rfl

theorem resourceKsqlDbClusterCreate_eq (w : World) (d : ResourceData) (m : Client) :
    resourceKsqlDbClusterCreate w d m =
      match w.urlError (ksqlDbClusterCreateRequest d m).URL with
      | some err => Outcome.returned (diag.FromErr err) d []
      | none =>
        match w.roundTrip (ksqlDbClusterCreateRequest d m) with
        | Except.error err =>
          Outcome.returned (diag.FromErr err) d [ksqlDbClusterCreateRequest d m]
        | Except.ok r =>
          if r.StatusCode ≠ 200 then
            Outcome.returned
              (diag.Errorf ("HTTP request error. Response code: " ++ fmtD r.StatusCode))
              d [ksqlDbClusterCreateRequest d m]
          else
            match w.decodeKsqlDbCluster r.Body with
            | Except.error err =>
              Outcome.returned (diag.FromErr err) d [ksqlDbClusterCreateRequest d m]
            | Except.ok resp =>
              if resp.Error ≠ "" then
                Outcome.returned
                  (diag.Errorf ("Unexpected API response. Body: " ++ resp.fmtV)) d
                  [ksqlDbClusterCreateRequest d m]
              else
                Outcome.returned []
                  ((d.Set "name" resp.Cluster.Name).1.SetId resp.Cluster.Id)
                  [ksqlDbClusterCreateRequest d m] := rfl

theorem resourceSchemaRegistryCreate_eq (w : World) (d : ResourceData) (m : Client) :
    resourceSchemaRegistryCreate w d m =
      match w.urlError (schemaRegistryCreateRequest d m).URL with
      | some err => Outcome.returned (diag.FromErr err) d []
      | none =>
        match w.roundTrip (schemaRegistryCreateRequest d m) with
        | Except.error err =>
          Outcome.returned (diag.FromErr err) d [schemaRegistryCreateRequest d m]
        | Except.ok r =>
          if r.StatusCode ≠ 200 then
            Outcome.returned
              (diag.Errorf ("HTTP request error. Response code: " ++ fmtD r.StatusCode))
              d [schemaRegistryCreateRequest d m]
          else
            match w.decodeSchemaRegistryCreate r.Body with
            | Except.error err =>
              Outcome.returned (diag.FromErr err) d [schemaRegistryCreateRequest d m]
            | Except.ok resp =>
              if resp.Error ≠ "" then
                Outcome.returned
                  (diag.Errorf ("Unexpected API response. Body: " ++ resp.fmtV)) d
                  [schemaRegistryCreateRequest d m]
              else
                Outcome.returned []
                  ((d.Set "name" resp.Cluster.Name).1.SetId resp.Cluster.Id)
                  [schemaRegistryCreateRequest d m] := rfl

theorem dataSourceSchemaRegistryRead_eq (w : World) (d : ResourceData) (m : Client) :
    dataSourceSchemaRegistryRead w d m =
      match w.urlError (schemaRegistryListRequest d m).URL with
      | some err => Outcome.returned (diag.FromErr err) d []
      | none =>
        match w.roundTrip (schemaRegistryListRequest d m) with
        | Except.error err =>
          Outcome.returned (diag.FromErr err) d [schemaRegistryListRequest d m]
        | Except.ok r =>
          if r.StatusCode ≠ 200 then
            Outcome.returned
              (diag.Errorf ("HTTP request error. Response code: " ++ fmtD r.StatusCode))
              d [schemaRegistryListRequest d m]
          else
            match w.decodeSchemaRegistryList r.Body with
            | Except.error err =>
              Outcome.returned (diag.FromErr err) d [schemaRegistryListRequest d m]
            | Except.ok resp =>
              if resp.Error ≠ "" then
                Outcome.returned
                  (diag.Errorf ("Unexpected API response. Body: " ++ resp.fmtV)) d
                  [schemaRegistryListRequest d m]
              else
                match resp.Clusters with
                | [] =>
                  Outcome.panicked "runtime error: index out of range [0] with length 0" d
                    [schemaRegistryListRequest d m]
                | first :: _ =>
                  Outcome.returned [] ((d.Set "name" first.Name).1.SetId first.Id)
                    [schemaRegistryListRequest d m] := rfl

/-! ## Resource data lemmas -/

theorem ResourceData.Set_of_declared (d : ResourceData) (key value : String) (s : Schema)
    (h : d.schema.lookup key = some s) :
    (d.Set key value).1 = { d with attrs := (key, value) :: d.attrs } := by
  simp [ResourceData.Set, h]

theorem ResourceData.Set_of_undeclared (d : ResourceData) (key value : String)
    (h : d.schema.lookup key = none) : (d.Set key value).1 = d := by
  simp [ResourceData.Set, h]

theorem ResourceData.Get_write (d : ResourceData) (key value k : String) :
    ResourceData.Get { d with attrs := (key, value) :: d.attrs } k =
      if k = key then value else d.Get k := by
  by_cases h : k = key
  · subst h
    simp [ResourceData.Get, List.lookup]
  · have hb : (k == key) = false := by simpa using h
    simp [ResourceData.Get, List.lookup, hb, h]

theorem ResourceData.schema_SetId (d : ResourceData) (v : String) :
    (d.SetId v).schema = d.schema := by
  unfold ResourceData.SetId
  split <;> rfl

theorem ResourceData.Id_SetId (d : ResourceData) (v : String) : (d.SetId v).Id = v := by
  unfold ResourceData.SetId
  split <;> rfl

theorem ResourceData.schema_Set (d : ResourceData) (key value : String) :
    (d.Set key value).1.schema = d.schema := by
  unfold ResourceData.Set
  split <;> rfl

theorem ResourceData.Get_SetId_of_undeclared (d : ResourceData) (v k : String)
    (h : d.schema.lookup "id" = none) : (d.SetId v).Get k = d.Get k := by
  simp [ResourceData.SetId, h, ResourceData.Get]

theorem ResourceData.Get_SetId_of_ne (d : ResourceData) (v k : String) (hk : k ≠ "id") :
    (d.SetId v).Get k = d.Get k := by
  have hb : (k == "id") = false := by simpa using hk
  unfold ResourceData.SetId
  split
  · rfl
  · simp [ResourceData.Get, List.lookup, hb]

theorem ResourceData.Get_SetId_id (d : ResourceData) (v : String) (s : Schema)
    (h : d.schema.lookup "id" = some s) : (d.SetId v).Get "id" = v := by
  simp [ResourceData.SetId, h, ResourceData.Get, List.lookup]

/-- The two messages of the create handlers differ in their first letter. -/
theorem unexpected_ne_http (x y : String) :
    "Unexpected API response. Body: " ++ x ≠ "HTTP request error. Response code: " ++ y := by
  intro h
  have h1 := congrArg String.data h
  have hU : "Unexpected API response. Body: ".data
      = 'U' :: "nexpected API response. Body: ".data := rfl
  have hH : "HTTP request error. Response code: ".data
      = 'H' :: "TTP request error. Response code: ".data := rfl
  simp only [String.data_append, hU, hH, List.cons_append, List.cons.injEq] at h1
  exact absurd h1.1 (by decide)

/-! ## Create: success -/

/-- C1, as stated, fails: on the ksqlDB stub (status 200, envelope error empty) the create
handler succeeds, yet the computed fields `endpoint` and `topic_prefix` stay empty although
the response carries both; the schema registry handler likewise leaves `endpoint` empty. -/
theorem create_computed_fields_counterexample :
    (∃ d', resourceKsqlDbClusterCreate (stubWorld 200 "" []) declaredKsqlDbCluster stubClient
        = Outcome.returned [] d' [ksqlDbClusterCreateRequest declaredKsqlDbCluster stubClient] ∧
      d'.Get "endpoint" = "" ∧
      stubKsqlDbCluster.Endpoint = "https://pksqlc-1.us-east-2.aws.confluent.cloud" ∧
      d'.Get "topic_prefix" = "" ∧
      ksqlDbCluster.OutputToicPrefix stubKsqlDbCluster = "pksqlc-1") ∧
    (∃ d', resourceSchemaRegistryCreate (stubWorld 200 "" []) declaredSchemaRegistry stubClient
        = Outcome.returned [] d'
            [schemaRegistryCreateRequest declaredSchemaRegistry stubClient] ∧
      d'.Get "endpoint" = "" ∧
      stubSchemaRegistryCluster.Endpoint = "https://psrc-1wydj.us-east-2.aws.confluent.cloud") :=
  ⟨⟨_, rfl, by decide, rfl, by decide, rfl⟩, ⟨_, rfl, by decide, rfl⟩⟩

/-- C1 (amended): on a decoded response with status 200 and an empty envelope error every
create handler returns no diagnostics and sets the identity to the nested id (`api_key.key`,
`cluster.id`). The API key handler stores `key` and `secret` from the response and nothing
else. The ksqlDB handler stores the response's cluster name under `name`, its computed `id`
attribute becomes the cluster id, and nothing else changes (`topic_prefix` and `endpoint` keep
their previous value). For the schema registry the computed `id` attribute becomes the
cluster id and no other attribute of its schema changes (`endpoint` keeps its previous
value). -/
theorem create_success (w : World) (d : ResourceData) (m : Client) (r : HttpResponse)
    (hs : r.StatusCode = 200) :
    (∀ resp : response, d.schema = resourceApiKey.Schema →
        w.urlError (apiKeyCreateRequest d m).URL = none →
        w.roundTrip (apiKeyCreateRequest d m) = Except.ok r →
        w.decodeApiKey r.Body = Except.ok resp → resp.Error = "" →
        ∃ d', resourceApiKeyCreate w d m
            = Outcome.returned [] d' [apiKeyCreateRequest d m] ∧
          d'.Id = resp.ApiKey.Key ∧ d'.Get "key" = resp.ApiKey.Key ∧
          d'.Get "secret" = resp.ApiKey.Secret ∧
          ∀ k, k ≠ "key" → k ≠ "secret" → d'.Get k = d.Get k) ∧
    (∀ resp : resourceKsqlDbClusterCreate.response, d.schema = resourceKsqlDbCluster.Schema →
        w.urlError (ksqlDbClusterCreateRequest d m).URL = none →
        w.roundTrip (ksqlDbClusterCreateRequest d m) = Except.ok r →
        w.decodeKsqlDbCluster r.Body = Except.ok resp → resp.Error = "" →
        ∃ d', resourceKsqlDbClusterCreate w d m
            = Outcome.returned [] d' [ksqlDbClusterCreateRequest d m] ∧
          d'.Id = resp.Cluster.Id ∧ d'.Get "id" = resp.Cluster.Id ∧
          d'.Get "name" = resp.Cluster.Name ∧
          ∀ k, k ≠ "name" → k ≠ "id" → d'.Get k = d.Get k) ∧
    (∀ resp : resourceSchemaRegistryCreate.responseBody,
        d.schema = resourceSchemaRegistry.Schema →
        w.urlError (schemaRegistryCreateRequest d m).URL = none →
        w.roundTrip (schemaRegistryCreateRequest d m) = Except.ok r →
        w.decodeSchemaRegistryCreate r.Body = Except.ok resp → resp.Error = "" →
        ∃ d', resourceSchemaRegistryCreate w d m
            = Outcome.returned [] d' [schemaRegistryCreateRequest d m] ∧
          d'.Id = resp.Cluster.Id ∧ d'.Get "id" = resp.Cluster.Id ∧
          ∀ k, (resourceSchemaRegistry.Schema.lookup k).isSome = true → k ≠ "id" →
            d'.Get k = d.Get k) := by
  refine ⟨?_, ?_, ?_⟩
  · intro resp hsch hu hr hd he
    have h1 : d.schema.lookup "secret"
        = some { Type_ := ValueType.TypeString, Computed := true } := by
      rw [hsch]; rfl
    have h2 : ({ d with attrs := ("secret", resp.ApiKey.Secret) :: d.attrs } :
        ResourceData).schema.lookup "key"
        = some { Type_ := ValueType.TypeString, Computed := true } := by
      show d.schema.lookup "key" = _
      rw [hsch]; rfl
    have h3 : ((d.Set "secret" resp.ApiKey.Secret).1.Set "key" resp.ApiKey.Key).1.schema.lookup
        "id" = none := by
      rw [ResourceData.schema_Set, ResourceData.schema_Set, hsch]; rfl
    refine ⟨((d.Set "secret" resp.ApiKey.Secret).1.Set "key" resp.ApiKey.Key).1.SetId
      resp.ApiKey.Key, ?_, ?_, ?_, ?_, ?_⟩
    · rw [resourceApiKeyCreate_eq, hu]
      simp only [hr, hs, hd, he, ne_eq, not_true_eq_false, if_false]
    · exact ResourceData.Id_SetId _ _
    · rw [ResourceData.Get_SetId_of_undeclared _ _ _ h3,
        ResourceData.Set_of_declared _ _ _ _ h1,
        ResourceData.Set_of_declared _ _ _ _ h2, ResourceData.Get_write]
      simp
    · rw [ResourceData.Get_SetId_of_undeclared _ _ _ h3,
        ResourceData.Set_of_declared _ _ _ _ h1,
        ResourceData.Set_of_declared _ _ _ _ h2, ResourceData.Get_write,
        ResourceData.Get_write]
      simp
    · intro k hk1 hk2
      rw [ResourceData.Get_SetId_of_undeclared _ _ _ h3,
        ResourceData.Set_of_declared _ _ _ _ h1,
        ResourceData.Set_of_declared _ _ _ _ h2, ResourceData.Get_write,
        ResourceData.Get_write]
      simp [hk1, hk2]
  · intro resp hsch hu hr hd he
    have h1 : d.schema.lookup "name"
        = some { Type_ := ValueType.TypeString, Required := true } := by
      rw [hsch]; rfl
    have h2 : (d.Set "name" resp.Cluster.Name).1.schema.lookup "id"
        = some { Type_ := ValueType.TypeString, Computed := true } := by
      rw [ResourceData.schema_Set, hsch]; rfl
    refine ⟨(d.Set "name" resp.Cluster.Name).1.SetId resp.Cluster.Id, ?_, ?_, ?_, ?_, ?_⟩
    · rw [resourceKsqlDbClusterCreate_eq, hu]
      simp only [hr, hs, hd, he, ne_eq, not_true_eq_false, if_false]
    · exact ResourceData.Id_SetId _ _
    · exact ResourceData.Get_SetId_id _ _ _ h2
    · rw [ResourceData.Get_SetId_of_ne _ _ _ (by decide),
        ResourceData.Set_of_declared _ _ _ _ h1, ResourceData.Get_write]
      simp
    · intro k hk hid
      rw [ResourceData.Get_SetId_of_ne _ _ _ hid,
        ResourceData.Set_of_declared _ _ _ _ h1, ResourceData.Get_write]
      simp [hk]
  · intro resp hsch hu hr hd he
    have h1 : d.schema.lookup "name" = none := by
      rw [hsch]; rfl
    have h2 : (d.Set "name" resp.Cluster.Name).1.schema.lookup "id"
        = some { Type_ := ValueType.TypeString, Computed := true } := by
      rw [ResourceData.schema_Set, hsch]; rfl
    refine ⟨(d.Set "name" resp.Cluster.Name).1.SetId resp.Cluster.Id, ?_, ?_, ?_, ?_⟩
    · rw [resourceSchemaRegistryCreate_eq, hu]
      simp only [hr, hs, hd, he, ne_eq, not_true_eq_false, if_false]
    · exact ResourceData.Id_SetId _ _
    · exact ResourceData.Get_SetId_id _ _ _ h2
    · intro k _ hid
      rw [ResourceData.Get_SetId_of_ne _ _ _ hid, ResourceData.Set_of_undeclared _ _ _ h1]

/-- C1 witness: the three stubs at status 200 with an empty envelope error. -/
theorem create_success_witness :
    (∃ d', resourceApiKeyCreate (stubWorld 200 "" []) declaredApiKey stubClient
        = Outcome.returned [] d' [apiKeyCreateRequest declaredApiKey stubClient] ∧
      d'.Id = "ABCDEFGH" ∧ d'.Get "key" = "ABCDEFGH" ∧ d'.Get "secret" = "s3cr3t") ∧
    (∃ d', resourceKsqlDbClusterCreate (stubWorld 200 "" []) declaredKsqlDbCluster stubClient
        = Outcome.returned [] d' [ksqlDbClusterCreateRequest declaredKsqlDbCluster stubClient] ∧
      d'.Id = "lksqlc-1" ∧ d'.Get "id" = "lksqlc-1" ∧ d'.Get "name" = "ksql-remote") ∧
    (∃ d', resourceSchemaRegistryCreate (stubWorld 200 "" []) declaredSchemaRegistry stubClient
        = Outcome.returned [] d'
            [schemaRegistryCreateRequest declaredSchemaRegistry stubClient] ∧
      d'.Id = "lsrc-o338zj" ∧ d'.Get "id" = "lsrc-o338zj" ∧
      d'.Get "location" = "us-east-2") := by
  have h := create_success (stubWorld 200 "" []) declaredApiKey stubClient
    { StatusCode := 200, Body := "" } rfl
  have hk := create_success (stubWorld 200 "" []) declaredKsqlDbCluster stubClient
    { StatusCode := 200, Body := "" } rfl
  have hr := create_success (stubWorld 200 "" []) declaredSchemaRegistry stubClient
    { StatusCode := 200, Body := "" } rfl
  obtain ⟨d1, e1, i1, k1, s1, _⟩ := h.1 _ rfl rfl rfl rfl rfl
  obtain ⟨d2, e2, i2, a2, n2, _⟩ := hk.2.1 _ rfl rfl rfl rfl rfl
  obtain ⟨d3, e3, i3, a3, f3⟩ := hr.2.2 _ rfl rfl rfl rfl rfl
  exact ⟨⟨d1, e1, i1, k1, s1⟩, ⟨d2, e2, i2, a2, n2⟩,
    ⟨d3, e3, i3, a3, (f3 "location" rfl (by decide)).trans rfl⟩⟩

/-! ## Create: failures -/

/-- C2: when the response status is not 200, each create handler returns exactly the one
error diagnostic naming the response code, whatever the body and the decoder say, and the
resource data (identity and attributes) is the one it was given: an unset identity stays
unset. -/
theorem create_http_error (w : World) (d : ResourceData) (m : Client) (r : HttpResponse)
    (hs : r.StatusCode ≠ 200) :
    (w.urlError (apiKeyCreateRequest d m).URL = none →
      w.roundTrip (apiKeyCreateRequest d m) = Except.ok r →
      resourceApiKeyCreate w d m =
        Outcome.returned
          [{ Severity := Severity.Error,
             Summary := "HTTP request error. Response code: " ++ fmtD r.StatusCode }]
          d [apiKeyCreateRequest d m]) ∧
    (w.urlError (ksqlDbClusterCreateRequest d m).URL = none →
      w.roundTrip (ksqlDbClusterCreateRequest d m) = Except.ok r →
      resourceKsqlDbClusterCreate w d m =
        Outcome.returned
          [{ Severity := Severity.Error,
             Summary := "HTTP request error. Response code: " ++ fmtD r.StatusCode }]
          d [ksqlDbClusterCreateRequest d m]) ∧
    (w.urlError (schemaRegistryCreateRequest d m).URL = none →
      w.roundTrip (schemaRegistryCreateRequest d m) = Except.ok r →
      resourceSchemaRegistryCreate w d m =
        Outcome.returned
          [{ Severity := Severity.Error,
             Summary := "HTTP request error. Response code: " ++ fmtD r.StatusCode }]
          d [schemaRegistryCreateRequest d m]) := by
  refine ⟨?_, ?_, ?_⟩
  · intro hu hr
    rw [resourceApiKeyCreate_eq, hu]
    simp only [hr, hs, ne_eq, not_false_eq_true, if_true, diag.Errorf]
  · intro hu hr
    rw [resourceKsqlDbClusterCreate_eq, hu]
    simp only [hr, hs, ne_eq, not_false_eq_true, if_true, diag.Errorf]
  · intro hu hr
    rw [resourceSchemaRegistryCreate_eq, hu]
    simp only [hr, hs, ne_eq, not_false_eq_true, if_true, diag.Errorf]

/-- C2 witness: the stubs answering 500 (their bodies would decode to a full payload). -/
theorem create_http_error_witness :
    (resourceApiKeyCreate (stubWorld 500 "" []) declaredApiKey stubClient).data.Id = "" ∧
    resourceApiKeyCreate (stubWorld 500 "" []) declaredApiKey stubClient =
      Outcome.returned
        [{ Severity := Severity.Error, Summary := "HTTP request error. Response code: 500" }]
        declaredApiKey [apiKeyCreateRequest declaredApiKey stubClient] ∧
    resourceKsqlDbClusterCreate (stubWorld 500 "" []) declaredKsqlDbCluster stubClient =
      Outcome.returned
        [{ Severity := Severity.Error, Summary := "HTTP request error. Response code: 500" }]
        declaredKsqlDbCluster [ksqlDbClusterCreateRequest declaredKsqlDbCluster stubClient] ∧
    resourceSchemaRegistryCreate (stubWorld 500 "" []) declaredSchemaRegistry stubClient =
      Outcome.returned
        [{ Severity := Severity.Error, Summary := "HTTP request error. Response code: 500" }]
        declaredSchemaRegistry
        [schemaRegistryCreateRequest declaredSchemaRegistry stubClient] :=
  ⟨rfl,
   (create_http_error (stubWorld 500 "" []) declaredApiKey stubClient
      { StatusCode := 500, Body := "" } (by decide)).1 rfl rfl,
   (create_http_error (stubWorld 500 "" []) declaredKsqlDbCluster stubClient
      { StatusCode := 500, Body := "" } (by decide)).2.1 rfl rfl,
   (create_http_error (stubWorld 500 "" []) declaredSchemaRegistry stubClient
      { StatusCode := 500, Body := "" } (by decide)).2.2 rfl rfl⟩

/-- C3: when the status is 200 and the decoded envelope has a non-empty error, each create
handler returns exactly one error diagnostic, "Unexpected API response" followed by the
decoded body, which is never the status-code diagnostic, and the resource data is the one it
was given, whatever id, key or name the payload carries: an unset identity stays unset. -/
theorem create_logical_error (w : World) (d : ResourceData) (m : Client) (r : HttpResponse)
    (hs : r.StatusCode = 200) :
    (∀ resp : response,
      w.urlError (apiKeyCreateRequest d m).URL = none →
      w.roundTrip (apiKeyCreateRequest d m) = Except.ok r →
      w.decodeApiKey r.Body = Except.ok resp → resp.Error ≠ "" →
      resourceApiKeyCreate w d m =
        Outcome.returned
          [{ Severity := Severity.Error,
             Summary := "Unexpected API response. Body: " ++ resp.fmtV }]
          d [apiKeyCreateRequest d m] ∧
      ∀ code : Int, "Unexpected API response. Body: " ++ resp.fmtV
        ≠ "HTTP request error. Response code: " ++ fmtD code) ∧
    (∀ resp : resourceKsqlDbClusterCreate.response,
      w.urlError (ksqlDbClusterCreateRequest d m).URL = none →
      w.roundTrip (ksqlDbClusterCreateRequest d m) = Except.ok r →
      w.decodeKsqlDbCluster r.Body = Except.ok resp → resp.Error ≠ "" →
      resourceKsqlDbClusterCreate w d m =
        Outcome.returned
          [{ Severity := Severity.Error,
             Summary := "Unexpected API response. Body: " ++ resp.fmtV }]
          d [ksqlDbClusterCreateRequest d m] ∧
      ∀ code : Int, "Unexpected API response. Body: " ++ resp.fmtV
        ≠ "HTTP request error. Response code: " ++ fmtD code) ∧
    (∀ resp : resourceSchemaRegistryCreate.responseBody,
      w.urlError (schemaRegistryCreateRequest d m).URL = none →
      w.roundTrip (schemaRegistryCreateRequest d m) = Except.ok r →
      w.decodeSchemaRegistryCreate r.Body = Except.ok resp → resp.Error ≠ "" →
      resourceSchemaRegistryCreate w d m =
        Outcome.returned
          [{ Severity := Severity.Error,
             Summary := "Unexpected API response. Body: " ++ resp.fmtV }]
          d [schemaRegistryCreateRequest d m] ∧
      ∀ code : Int, "Unexpected API response. Body: " ++ resp.fmtV
        ≠ "HTTP request error. Response code: " ++ fmtD code) := by
  refine ⟨?_, ?_, ?_⟩
  · intro resp hu hr hd he
    refine ⟨?_, fun code => unexpected_ne_http _ _⟩
    rw [resourceApiKeyCreate_eq, hu]
    simp only [hr, hs, hd, he, ne_eq, not_true_eq_false, not_false_eq_true, if_true, if_false,
      diag.Errorf]
  · intro resp hu hr hd he
    refine ⟨?_, fun code => unexpected_ne_http _ _⟩
    rw [resourceKsqlDbClusterCreate_eq, hu]
    simp only [hr, hs, hd, he, ne_eq, not_true_eq_false, not_false_eq_true, if_true, if_false,
      diag.Errorf]
  · intro resp hu hr hd he
    refine ⟨?_, fun code => unexpected_ne_http _ _⟩
    rw [resourceSchemaRegistryCreate_eq, hu]
    simp only [hr, hs, hd, he, ne_eq, not_true_eq_false, not_false_eq_true, if_true, if_false,
      diag.Errorf]

/-- C3 witness: the stubs answering 200 with envelope error "quota exceeded" next to a full
payload (key "ABCDEFGH", cluster ids "lksqlc-1" and "lsrc-o338zj"): the identity stays unset. -/
theorem create_logical_error_witness :
    (∃ msg, resourceApiKeyCreate (stubWorld 200 "quota exceeded" []) declaredApiKey stubClient =
      Outcome.returned [{ Severity := Severity.Error, Summary := msg }] declaredApiKey
        [apiKeyCreateRequest declaredApiKey stubClient]) ∧
    (∃ msg, resourceKsqlDbClusterCreate (stubWorld 200 "quota exceeded" [])
        declaredKsqlDbCluster stubClient =
      Outcome.returned [{ Severity := Severity.Error, Summary := msg }] declaredKsqlDbCluster
        [ksqlDbClusterCreateRequest declaredKsqlDbCluster stubClient]) ∧
    (∃ msg, resourceSchemaRegistryCreate (stubWorld 200 "quota exceeded" [])
        declaredSchemaRegistry stubClient =
      Outcome.returned [{ Severity := Severity.Error, Summary := msg }] declaredSchemaRegistry
        [schemaRegistryCreateRequest declaredSchemaRegistry stubClient]) ∧
    declaredApiKey.Id = "" ∧ declaredKsqlDbCluster.Id = "" ∧ declaredSchemaRegistry.Id = "" ∧
    stubApiKey.Key = "ABCDEFGH" :=
  ⟨⟨_, ((create_logical_error (stubWorld 200 "quota exceeded" []) declaredApiKey stubClient
      { StatusCode := 200, Body := "" } rfl).1 _ rfl rfl rfl (by decide)).1⟩,
   ⟨_, ((create_logical_error (stubWorld 200 "quota exceeded" []) declaredKsqlDbCluster
      stubClient { StatusCode := 200, Body := "" } rfl).2.1 _ rfl rfl rfl (by decide)).1⟩,
   ⟨_, ((create_logical_error (stubWorld 200 "quota exceeded" []) declaredSchemaRegistry
      stubClient { StatusCode := 200, Body := "" } rfl).2.2 _ rfl rfl rfl (by decide)).1⟩,
   rfl, rfl, rfl, rfl⟩

/-! ## Import -/

theorem splitChars_ne_nil (sep : Char) (cs : List Char) : splitChars sep cs ≠ [] := by
  cases cs with
  | nil => simp [splitChars]
  | cons c cs =>
    unfold splitChars
    split
    · simp
    · split <;> simp

theorem splitChars_of_not_mem (sep : Char) (a : List Char) (h : sep ∉ a) :
    splitChars sep a = [a] := by
  induction a with
  | nil => rfl
  | cons c cs ih =>
    have hc : c ≠ sep := fun e => h (by simp [e])
    have hcs : sep ∉ cs := fun e => h (by simp [e])
    simp [splitChars, hc, ih hcs]

theorem splitChars_append_sep (sep : Char) (a b : List Char) (h : sep ∉ a) :
    splitChars sep (a ++ sep :: b) = a :: splitChars sep b := by
  induction a with
  | nil => simp [splitChars]
  | cons c cs ih =>
    have hc : c ≠ sep := fun e => h (by simp [e])
    have hcs : sep ∉ cs := fun e => h (by simp [e])
    simp [splitChars, hc, ih hcs]

theorem length_splitChars (sep : Char) (cs : List Char) :
    (splitChars sep cs).length = cs.count sep + 1 := by
  induction cs with
  | nil => rfl
  | cons c cs ih =>
    by_cases hc : c = sep
    · subst hc
      simp [splitChars, ih]
    · cases hsp : splitChars sep cs with
      | nil => exact absurd hsp (splitChars_ne_nil sep cs)
      | cons p ps =>
        rw [hsp] at ih
        simp [splitChars, hc, hsp, List.count_cons] at ih ⊢
        omega

theorem length_Split (s : String) (sep : Char) :
    (strings.Split s sep).length = s.data.count sep + 1 := by
  simp [strings.Split, length_splitChars]

theorem schemaRegistryImport_eq (d : ResourceData) (m : Client) :
    schemaRegistryImport d m =
      match strings.Split d.Id '/' with
      | [environmentId, clusterId] =>
        (Except.ok [((d.SetId clusterId).Set "environment_id" environmentId).1],
          ((d.SetId clusterId).Set "environment_id" environmentId).1)
      | _ => (Except.error "invalid format for kafka import: expected '<env ID>/<lkc ID>'", d) :=
  rfl

/-- C4: for an external id `env ++ "/" ++ cluster` with no slash inside `env` or `cluster`,
`schemaRegistryImport` succeeds and returns exactly one resource, the one it was given, now
with identity `cluster` and `environment_id` equal to `env`. -/
theorem import_ok (env cluster : String) (d : ResourceData) (m : Client)
    (hsch : d.schema = resourceSchemaRegistry.Schema)
    (he : '/' ∉ env.data) (hc : '/' ∉ cluster.data) (hid : d.Id = env ++ "/" ++ cluster) :
    ∃ d', schemaRegistryImport d m = (Except.ok [d'], d') ∧
      d'.Id = cluster ∧ d'.Get "environment_id" = env := by
  have hparts : strings.Split d.Id '/' = [env, cluster] := by
    have hdata : d.Id.data = env.data ++ '/' :: cluster.data := by
      rw [hid]
      simp [String.data_append]
    simp [strings.Split, hdata, splitChars_append_sep _ _ _ he, splitChars_of_not_mem _ _ hc]
  have h1 : (d.SetId cluster).schema.lookup "environment_id"
      = some { Type_ := ValueType.TypeString, Required := true } := by
    rw [ResourceData.schema_SetId, hsch]; rfl
  refine ⟨((d.SetId cluster).Set "environment_id" env).1, ?_, ?_, ?_⟩
  · rw [schemaRegistryImport_eq, hparts]
  · rw [ResourceData.Set_of_declared _ _ _ _ h1]
    exact ResourceData.Id_SetId d cluster
  · rw [ResourceData.Set_of_declared _ _ _ _ h1, ResourceData.Get_write]
    simp

/-- C4 witness: importing "env-abc/lkc-123". -/
theorem import_ok_witness :
    ∃ d', schemaRegistryImport { declaredSchemaRegistry with id := "env-abc/lkc-123" } stubClient
        = (Except.ok [d'], d') ∧
      d'.Id = "lkc-123" ∧ d'.Get "environment_id" = "env-abc" :=
  import_ok "env-abc" "lkc-123" { declaredSchemaRegistry with id := "env-abc/lkc-123" }
    stubClient rfl (by decide) (by decide) rfl

/-- C5: `schemaRegistryImport` fails exactly when the external id does not contain exactly
one slash; the error is then the message naming the expected format, no resource is
returned and the resource data (identity and attributes) is the one it was given. -/
theorem import_invalid (d : ResourceData) (m : Client) :
    ((∃ e, (schemaRegistryImport d m).1 = Except.error e) ↔ d.Id.data.count '/' ≠ 1) ∧
    (d.Id.data.count '/' ≠ 1 →
      schemaRegistryImport d m =
        (Except.error "invalid format for kafka import: expected '<env ID>/<lkc ID>'", d)) := by
  have hlen := length_Split d.Id '/'
  have hfail : d.Id.data.count '/' ≠ 1 →
      schemaRegistryImport d m =
        (Except.error "invalid format for kafka import: expected '<env ID>/<lkc ID>'", d) := by
    intro hcount
    rw [schemaRegistryImport_eq]
    generalize strings.Split d.Id '/' = parts at hlen
    match parts, hlen with
    | [], _ => rfl
    | [_], _ => rfl
    | [_, _], h => exact absurd (by simpa using h.symm) hcount
    | _ :: _ :: _ :: _, _ => rfl
  refine ⟨⟨?_, fun h => ⟨_, by rw [hfail h]⟩⟩, hfail⟩
  rintro ⟨e, he⟩ hcount
  rw [schemaRegistryImport_eq] at he
  rw [hcount] at hlen
  generalize strings.Split d.Id '/' = parts at hlen he
  match parts, hlen, he with
  | [], h, _ => simp at h
  | [_], h, _ => simp at h
  | [_, _], _, he => simp at he
  | _ :: _ :: _ :: _, h, _ => simp at h

/-- C5 witness: "env-abc" (no slash) and "a/b/c" (two slashes) are both refused. -/
theorem import_invalid_witness :
    schemaRegistryImport { declaredSchemaRegistry with id := "env-abc" } stubClient =
      (Except.error "invalid format for kafka import: expected '<env ID>/<lkc ID>'",
        { declaredSchemaRegistry with id := "env-abc" }) ∧
    schemaRegistryImport { declaredSchemaRegistry with id := "a/b/c" } stubClient =
      (Except.error "invalid format for kafka import: expected '<env ID>/<lkc ID>'",
        { declaredSchemaRegistry with id := "a/b/c" }) :=
  ⟨(import_invalid { declaredSchemaRegistry with id := "env-abc" } stubClient).2 (by decide),
   (import_invalid { declaredSchemaRegistry with id := "a/b/c" } stubClient).2 (by decide)⟩

/-! ## Data source lookup -/

theorem dataSourceSchemaRegistryRead_of_clusters (w : World) (d : ResourceData) (m : Client)
    (r : HttpResponse) (resp : dataSourceSchemaRegistryRead.responseBody)
    (hu : w.urlError (schemaRegistryListRequest d m).URL = none)
    (hr : w.roundTrip (schemaRegistryListRequest d m) = Except.ok r)
    (hs : r.StatusCode = 200)
    (hd : w.decodeSchemaRegistryList r.Body = Except.ok resp) (he : resp.Error = "") :
    dataSourceSchemaRegistryRead w d m =
      match resp.Clusters with
      | [] =>
        Outcome.panicked "runtime error: index out of range [0] with length 0" d
          [schemaRegistryListRequest d m]
      | first :: _ =>
        Outcome.returned [] ((d.Set "name" first.Name).1.SetId first.Id)
          [schemaRegistryListRequest d m] := by
  rw [dataSourceSchemaRegistryRead_eq, hu]
  simp only [hr, hs, hd, he, ne_eq, not_true_eq_false, if_false]

/-- C6 (what the code does): on the stub answering 200 with an empty envelope error and an
empty cluster list, `dataSourceSchemaRegistryRead` does not return a diagnostic: evaluating
`resp.Clusters[0]` panics with an index out of range, before anything is written. -/
theorem lookup_empty_list_panics :
    dataSourceSchemaRegistryRead (stubWorld 200 "" []) declaredLookup stubClient =
      Outcome.panicked "runtime error: index out of range [0] with length 0" declaredLookup
        [schemaRegistryListRequest declaredLookup stubClient] :=
  dataSourceSchemaRegistryRead_of_clusters (stubWorld 200 "" []) declaredLookup stubClient
    { StatusCode := 200, Body := "" } { Error := "", Clusters := [] } rfl rfl rfl rfl rfl

/-- C7: on a response with status 200, an empty envelope error and a non-empty cluster list,
`dataSourceSchemaRegistryRead` returns no diagnostics, sets the identity to the id of the
first cluster and `name` to the name of the first cluster; the clusters after the first play
no part. -/
theorem lookup_first (w : World) (d : ResourceData) (m : Client) (r : HttpResponse)
    (resp : dataSourceSchemaRegistryRead.responseBody) (first : schemaRegistryCluster)
    (rest : List schemaRegistryCluster)
    (hsch : d.schema = dataSourceSchemaRegistry.Schema)
    (hu : w.urlError (schemaRegistryListRequest d m).URL = none)
    (hr : w.roundTrip (schemaRegistryListRequest d m) = Except.ok r)
    (hs : r.StatusCode = 200)
    (hd : w.decodeSchemaRegistryList r.Body = Except.ok resp) (he : resp.Error = "")
    (hc : resp.Clusters = first :: rest) :
    ∃ d', dataSourceSchemaRegistryRead w d m
        = Outcome.returned [] d' [schemaRegistryListRequest d m] ∧
      d'.Id = first.Id ∧ d'.Get "name" = first.Name ∧
      ∀ k, k ≠ "name" → d'.Get k = d.Get k := by
  have h1 : d.schema.lookup "name"
      = some (Schema.mk ValueType.TypeString false false true false
          (some (ElemSchema.mk ValueType.TypeString))) := by
    rw [hsch]; rfl
  have h2 : (d.Set "name" first.Name).1.schema.lookup "id" = none := by
    rw [ResourceData.schema_Set, hsch]; rfl
  refine ⟨(d.Set "name" first.Name).1.SetId first.Id, ?_, ResourceData.Id_SetId _ _, ?_, ?_⟩
  · rw [dataSourceSchemaRegistryRead_of_clusters w d m r resp hu hr hs hd he, hc]
  · rw [ResourceData.Get_SetId_of_undeclared _ _ _ h2,
      ResourceData.Set_of_declared _ _ _ _ h1, ResourceData.Get_write]
    simp
  · intro k hk
    rw [ResourceData.Get_SetId_of_undeclared _ _ _ h2,
      ResourceData.Set_of_declared _ _ _ _ h1, ResourceData.Get_write]
    simp [hk]

/-- C7 witness: a list of two registries; the first one is taken. -/
theorem lookup_first_witness :
    ∃ d', dataSourceSchemaRegistryRead
          (stubWorld 200 "" [stubSchemaRegistryCluster, otherSchemaRegistryCluster])
          declaredLookup stubClient
        = Outcome.returned [] d' [schemaRegistryListRequest declaredLookup stubClient] ∧
      d'.Id = "lsrc-o338zj" ∧ d'.Get "name" = "account schema-registry" := by
  obtain ⟨d', h, hi, hn, _⟩ := lookup_first
    (stubWorld 200 "" [stubSchemaRegistryCluster, otherSchemaRegistryCluster])
    declaredLookup stubClient { StatusCode := 200, Body := "" }
    { Error := "", Clusters := [stubSchemaRegistryCluster, otherSchemaRegistryCluster] }
    stubSchemaRegistryCluster [otherSchemaRegistryCluster] rfl rfl rfl rfl rfl rfl rfl
  exact ⟨d', h, hi, hn⟩

/-! ## The handlers without a body -/

/-- C8, as stated, fails for the Update of an API key: `resourceApiKey` registers no
`UpdateContext`, so there is no Update handler that could succeed. -/
theorem apiKey_update_counterexample :
    resourceApiKey.UpdateContext = none ∧ ¬ IsNoOp resourceApiKey.UpdateContext := by
  refine ⟨rfl, ?_⟩
  rintro ⟨f, hf, _⟩
  exact absurd hf (by simp [resourceApiKey])

/-- C8 (amended): Read and Delete of an API key, Read, Update and Delete of a ksqlDB cluster,
and Update and Delete of a schema registry are registered no-ops: no diagnostics, no request,
resource data unchanged. An API key has no Update handler at all. -/
theorem noop_handlers :
    IsNoOp resourceApiKey.ReadContext ∧ IsNoOp resourceApiKey.DeleteContext ∧
    resourceApiKey.UpdateContext = none ∧
    IsNoOp resourceKsqlDbCluster.ReadContext ∧ IsNoOp resourceKsqlDbCluster.UpdateContext ∧
    IsNoOp resourceKsqlDbCluster.DeleteContext ∧
    IsNoOp resourceSchemaRegistry.UpdateContext ∧
    IsNoOp resourceSchemaRegistry.DeleteContext :=
  ⟨⟨resourceApiKeyRead, rfl, fun _ _ _ => rfl⟩, ⟨resourceApiKeyDelete, rfl, fun _ _ _ => rfl⟩,
   rfl,
   ⟨resourceKsqlDbClusterRead, rfl, fun _ _ _ => rfl⟩,
   ⟨resourceKsqlDbClusterUpdate, rfl, fun _ _ _ => rfl⟩,
   ⟨resourceKsqlDbClusterDelete, rfl, fun _ _ _ => rfl⟩,
   ⟨resourceSchemaRegistryUpdate, rfl, fun _ _ _ => rfl⟩,
   ⟨resourceSchemaRegistryDelete, rfl, fun _ _ _ => rfl⟩⟩

/-! ## The API key request -/

theorem resourceApiKeyCreate_sent (w : World) (d : ResourceData) (m : Client)
    (hu : w.urlError (apiKeyCreateRequest d m).URL = none) :
    (resourceApiKeyCreate w d m).sent = [apiKeyCreateRequest d m] := by
  rw [resourceApiKeyCreate_eq, hu]
  simp only []
  repeat' split
  all_goals rfl

/-- C9, as stated, fails: the declared `environment_id` "a&b=c" is put into the URL as it
is, so the request that is sent carries the query parameter `account_id` with value "a" and a
second parameter `b`; `account_id` is not the declared `environment_id`. -/
theorem apiKey_query_counterexample :
    declaredApiKeyAmpersand.Get "environment_id" = "a&b=c" ∧
    ∃ req,
      (resourceApiKeyCreate (stubWorld 200 "" []) declaredApiKeyAmpersand stubClient).sent
        = [req] ∧
      req.Method = "POST" ∧
      req.URL = "https://api.confluent.cloud/api_keys?account_id=a&b=c" ∧
      queryParams req.URL = some [("account_id", "a"), ("b", "c")] :=
  ⟨by decide, apiKeyCreateRequest declaredApiKeyAmpersand stubClient, rfl, rfl, by decide,
    by decide⟩

/-- C9 (amended): whenever the URL is accepted, `resourceApiKeyCreate` hands exactly one
request to the client, whatever the declared fields: a POST whose URL is the text
`https://api.confluent.cloud/api_keys?account_id=` followed by the declared `environment_id`
as it is, unescaped, and whose body is the object `apiKey` with `accountId` the
`environment_id`, `description` the `description`, and `logicalClusters` a list of one object
with `id` the `resource_id` and `type` the `resource_type`. -/
theorem apiKey_create_request (w : World) (d : ResourceData) (m : Client)
    (env rid rty desc : String)
    (henv : d.Get "environment_id" = env) (hrid : d.Get "resource_id" = rid)
    (hrty : d.Get "resource_type" = rty) (hdesc : d.Get "description" = desc)
    (hu : w.urlError ("https://api.confluent.cloud/api_keys?account_id=" ++ env) = none) :
    ∃ req, (resourceApiKeyCreate w d m).sent = [req] ∧
      req.Method = "POST" ∧
      req.URL = "https://api.confluent.cloud/api_keys?account_id=" ++ env ∧
      req.Body = some (Json.obj [("apiKey", Json.obj
        [("accountId", Json.str env),
         ("description", Json.str desc),
         ("logicalClusters", Json.arr [Json.obj [("id", Json.str rid),
            ("type", Json.str rty)]]),
         ("userId", Json.num 0),
         ("userResourceId", Json.str "sa-gq8no3")])]) := by
  subst henv hrid hrty hdesc
  exact ⟨apiKeyCreateRequest d m, resourceApiKeyCreate_sent w d m hu, rfl, rfl, rfl⟩

/-- C9 witness: the declared API key of environment "env-18vqv" for kafka cluster
"lkc-415jz". -/
theorem apiKey_create_request_witness :
    ∃ req, (resourceApiKeyCreate (stubWorld 200 "" []) declaredApiKey stubClient).sent = [req] ∧
      req.Method = "POST" ∧
      req.URL = "https://api.confluent.cloud/api_keys?account_id=" ++ "env-18vqv" ∧
      req.Body = some (Json.obj [("apiKey", Json.obj
        [("accountId", Json.str "env-18vqv"),
         ("description", Json.str "ci key"),
         ("logicalClusters", Json.arr [Json.obj [("id", Json.str "lkc-415jz"),
            ("type", Json.str "kafka")]]),
         ("userId", Json.num 0),
         ("userResourceId", Json.str "sa-gq8no3")])]) :=
  apiKey_create_request (stubWorld 200 "" []) declaredApiKey stubClient
    "env-18vqv" "lkc-415jz" "kafka" "ci key" rfl rfl rfl rfl rfl

/-! ## ForceNew -/

/-- C10, as stated, fails: the ksqlDB cluster input `name` is `Required` and not `ForceNew`,
and neither the ksqlDB cluster nor the schema registry declares every input `ForceNew`. -/
theorem force_new_counterexample :
    resourceKsqlDbCluster.Schema.lookup "name"
      = some { Type_ := ValueType.TypeString, Required := true, ForceNew := false } ∧
    inputsForceNew resourceKsqlDbCluster = false ∧
    inputsForceNew resourceSchemaRegistry = false := by
  refine ⟨rfl, ?_, ?_⟩ <;> decide

/-- C10 (amended): every input of the API key is `ForceNew`, and the API key registers no
Update handler; the ksqlDB cluster and the schema registry declare no attribute `ForceNew`,
and both register an Update handler (which a change to an input reaches). -/
theorem force_new_declared :
    inputsForceNew resourceApiKey = true ∧ resourceApiKey.UpdateContext.isNone = true ∧
    noForceNew resourceKsqlDbCluster = true ∧
    resourceKsqlDbCluster.UpdateContext.isSome = true ∧
    noForceNew resourceSchemaRegistry = true ∧
    resourceSchemaRegistry.UpdateContext.isSome = true := by
  refine ⟨?_, rfl, ?_, rfl, ?_, rfl⟩ <;> decide

/-! ## The owner of an API key -/

/-- C11: two declared states that agree on `environment_id`, `resource_id`, `resource_type`
and `description` make `resourceApiKeyCreate` send one request each with the same URL and
the same body, whatever else they declare (`owner_id`, `owner_email`) and whichever remote
and client they run against; in that body the `apiKey` object has `userId` 0 and
`userResourceId` "sa-gq8no3". -/
theorem apiKey_request_ignores_owner (w₁ w₂ : World) (d₁ d₂ : ResourceData) (m₁ m₂ : Client)
    (henv : d₁.Get "environment_id" = d₂.Get "environment_id")
    (hrid : d₁.Get "resource_id" = d₂.Get "resource_id")
    (hrty : d₁.Get "resource_type" = d₂.Get "resource_type")
    (hdesc : d₁.Get "description" = d₂.Get "description")
    (hu₁ : w₁.urlError
      ("https://api.confluent.cloud/api_keys?account_id=" ++ d₁.Get "environment_id") = none)
    (hu₂ : w₂.urlError
      ("https://api.confluent.cloud/api_keys?account_id=" ++ d₂.Get "environment_id") = none) :
    ∃ req₁ req₂ body key,
      (resourceApiKeyCreate w₁ d₁ m₁).sent = [req₁] ∧
      (resourceApiKeyCreate w₂ d₂ m₂).sent = [req₂] ∧
      req₁.Method = req₂.Method ∧ req₁.URL = req₂.URL ∧
      req₁.Body = some body ∧ req₂.Body = some body ∧
      body.field "apiKey" = some key ∧
      key.field "userId" = some (Json.num 0) ∧
      key.field "userResourceId" = some (Json.str "sa-gq8no3") := by
  refine ⟨apiKeyCreateRequest d₁ m₁, apiKeyCreateRequest d₂ m₂, _, _,
    resourceApiKeyCreate_sent w₁ d₁ m₁ hu₁, resourceApiKeyCreate_sent w₂ d₂ m₂ hu₂,
    rfl, ?_, rfl, ?_, rfl, rfl, rfl⟩
  · simp only [apiKeyCreateRequest, henv]
  · simp only [apiKeyCreateRequest, henv, hrid, hrty, hdesc]

/-- C11 witness: the same declared key under owner "42" and under owner "99" with an owner
email, sent with different client credentials. -/
theorem apiKey_request_ignores_owner_witness :
    declaredApiKey.Get "owner_id" = "42" ∧ declaredApiKeyOtherOwner.Get "owner_id" = "99" ∧
    declaredApiKeyOtherOwner.Get "owner_email" = "ops@example.com" ∧
    ∃ req₁ req₂ body key,
      (resourceApiKeyCreate (stubWorld 200 "" []) declaredApiKey stubClient).sent = [req₁] ∧
      (resourceApiKeyCreate (stubWorld 500 "" []) declaredApiKeyOtherOwner
        { apiKey := "other-key", apiSecret := "other-secret" }).sent = [req₂] ∧
      req₁.Method = req₂.Method ∧ req₁.URL = req₂.URL ∧
      req₁.Body = some body ∧ req₂.Body = some body ∧
      body.field "apiKey" = some key ∧
      key.field "userId" = some (Json.num 0) ∧
      key.field "userResourceId" = some (Json.str "sa-gq8no3") :=
  ⟨by decide, by decide, by decide,
   apiKey_request_ignores_owner (stubWorld 200 "" []) (stubWorld 500 "" []) declaredApiKey
     declaredApiKeyOtherOwner stubClient { apiKey := "other-key", apiSecret := "other-secret" }
     (by decide) (by decide) (by decide) (by decide) rfl rfl⟩

end ConfluentCloud
